import Mathlib

/-!
Shallow embedding of the generic data-access layer in
`src/backend/internal/crud.py` (filtering, pagination, and
create/read/update/soft-delete over a relational store), together with
theorems settling the behavioural claims about it.

Modelling conventions:
* Python scalar values (str / int / bool / None) are the inductive `Val`;
  Python truthiness is `Val.truthy`.
* A persisted record is a `Row`: primary key `id`, the soft-delete flag
  `valid`, the two well-known timestamp columns `created_at` / `updated_at`
  (microseconds since the epoch, as `Nat`), and the remaining columns as an
  association list `fields`.
* Entity metadata (`model.__table__.columns`, declared foreign keys, unique
  constraints) is the structure `Model`.
* The SQLAlchemy session is the structure `DB`: a table-name-indexed store
  plus the `closed` flag set by `db.close()`.  Query handles are the
  materialised row lists they select, and `query.filter` is `List.filter`.
* Fallible code returns `Except PyErr`; `PyErr` covers the exceptions the
  source can raise (`HTTPException`, `TypeError`, `UnboundLocalError`
  modelled as a name error, and `ItemKeyValidationError`).
-/

/-- A Python scalar value: string, integer, boolean or `None`. -/
inductive Val where
  | s (v : String)
  | i (v : Int)
  | b (v : Bool)
  | null
deriving Repr, DecidableEq

/-- Python truthiness of a scalar: empty string, `0`, `False` and `None`
are falsy, everything else is truthy. -/
def Val.truthy : Val → Bool
  | Val.s v => !(v == "")
  | Val.i v => !(v == 0)
  | Val.b v => v
  | Val.null => false

/-- Equality as evaluated by a SQL column comparison `column == value`:
same-kind scalars compare by value, booleans compare with integers through
their 0/1 coercion (Python `bool` is a subclass of `int`), and `NULL`
compares equal to nothing. -/
def pyEq : Val → Val → Bool
  | Val.s a, Val.s b => a == b
  | Val.i a, Val.i b => a == b
  | Val.b a, Val.b b => a == b
  | Val.b a, Val.i n => (if a then (1 : Int) else 0) == n
  | Val.i n, Val.b a => n == (if a then (1 : Int) else 0)
  | _, _ => false

/-- Python `isinstance(v, type(stored))` for the scalar kinds the update
loop compares: `bool` is a subclass of `int`, so a boolean payload value
passes against a stored integer, but not the other way round. -/
def valIsinstance : Val → Val → Bool
  | Val.s _, Val.s _ => true
  | Val.i _, Val.i _ => true
  | Val.b _, Val.i _ => true
  | Val.b _, Val.b _ => true
  | Val.null, Val.null => true
  | _, _ => false

/-- A persisted record: primary key, soft-delete flag, the two well-known
timestamp columns (microseconds), and the remaining columns by name. -/
structure Row where
  id : Nat
  valid : Bool
  created_at : Nat
  updated_at : Nat
  fields : List (String × Val)
deriving Repr, DecidableEq

/-- Attribute access `getattr(row, column)` on a loaded entity for the
generic (non-timestamp) columns; a column never set reads as `None`. -/
def getField (r : Row) (k : String) : Val :=
  (r.fields.lookup k).getD Val.null

/-- The `setattr(item, key, value)` of the update loop on a generic
column. -/
def setField (r : Row) (k : String) (v : Val) : Row :=
  { r with fields := r.fields.map (fun kv => if kv.1 == k then (k, v) else kv) }

/-- One column of an entity's `__table__.columns`: its name and, when the
column is foreign-key constrained, the name of the referenced table. -/
structure Column where
  name : String
  fk : Option String
deriving Repr, DecidableEq

/-- Entity metadata: table name, declared columns, and the set of columns
carrying a uniqueness constraint.  The uniqueness set is modelled from the
spec: the store raises an integrity violation on insert when a unique
column collides (spec section 7, Conflict). -/
structure Model where
  name : String
  columns : List Column
  uniqueCols : List String
deriving Repr, DecidableEq

/-- Names of the entity's declared columns. -/
def colNames (model : Model) : List String :=
  model.columns.map (fun c => c.name)

/-- The database session: the backing store indexed by table name plus the
flag set by `db.close()`.  Modelled from the spec: the session contract
(spec section 6) supports starting a query over an entity, executing it,
committing, rolling back and closing; closing releases resources but the
session object remains usable afterwards, as with SQLAlchemy. -/
structure DB where
  tables : String → List Row
  closed : Bool

/-- The base query `db.query(model)`: all rows of the entity's table. -/
def dbQuery (db : DB) (model : Model) : List Row :=
  db.tables model.name

/-- The session release `db.close()`. -/
def closeDB (db : DB) : DB :=
  { db with closed := true }

/-- Exceptions raised by the source: `fastapi.HTTPException` with its
status code and detail, Python `TypeError` and the unbound-local name
error, and `ItemKeyValidationError`.  The latter is modelled from the
spec: it is defined in `internal/custom_exception.py`, which is not part
of the sources here; the spec says the primary-key read path fails with
NotFound when the key is absent. -/
inductive PyErr where
  | http (code : Nat) (detail : String)
  | typeError (msg : String)
  | nameError (msg : String)
  | itemKeyValidationError (index : Nat)
deriving Repr, DecidableEq

/-- The HTTP status an exception reaches the caller with; `TypeError` and
the name error have none. -/
def PyErr.statusCode : PyErr → Option Nat
  | PyErr.http c _ => some c
  | PyErr.itemKeyValidationError _ => some 404
  | _ => Option.none

/-- Status code of the error of a fallible result, if any. -/
def errStatus {α : Type} : Except PyErr α → Option Nat
  | Except.error e => PyErr.statusCode e
  | Except.ok _ => Option.none

/-- Results of fallible operations compare decidably. -/
instance {ε α : Type} [DecidableEq ε] [DecidableEq α] :
    DecidableEq (Except ε α)
  | Except.ok a, Except.ok b =>
    if h : a = b then isTrue (by rw [h])
    else isFalse (fun hc => h (Except.ok.inj hc))
  | Except.ok _, Except.error _ => isFalse (fun hc => Except.noConfusion hc)
  | Except.error _, Except.ok _ => isFalse (fun hc => Except.noConfusion hc)
  | Except.error d, Except.error e =>
    if h : d = e then isTrue (by rw [h])
    else isFalse (fun hc => h (Except.error.inj hc))

/-- Rough `str(e)` of an exception, used when one exception message embeds
another. -/
def describeErr : PyErr → String
  | PyErr.http c d => "HTTPException " ++ toString c ++ " " ++ d
  | PyErr.typeError m => m
  | PyErr.nameError m => m
  | PyErr.itemKeyValidationError i => "ItemKeyValidationError " ++ toString i

/- ### Query Filter Builder -/

/-- Microseconds in one day; dates are day numbers, timestamps are
microseconds since the epoch. -/
def usPerDay : Nat := 86400000000

/-- The instant `datetime.combine(d, time.min)`: midnight opening day
`d`. -/
def startOfDay (d : Nat) : Nat := d * usPerDay

/-- The instant `datetime.combine(d, time.max)`: the last representable
microsecond of day `d`. -/
def endOfDay (d : Nat) : Nat := d * usPerDay + (usPerDay - 1)

/-- The date-range request object `p`: its `__dict__` holds `get_begin`
and `get_end`, in that order; a Python `date` is always truthy, so a set
field is `some`. -/
structure Period where
  get_begin : Option Nat
  get_end : Option Nat
deriving Repr, DecidableEq

/-- Translation of `filter_by_period(query, model, p, use_updated_at)`:
pick `model.updated_at` when `use_updated_at` is truthy, else
`model.created_at`; then, walking `p.__dict__` in order, add
`date_column >= combine(get_begin, time.min)` when `get_begin` is set and
`date_column <= combine(get_end, time.max)` when `get_end` is set. -/
def filter_by_period (query : List Row) (model : Model) (p : Period)
    (use_updated_at : Bool) : List Row :=
  let q1 := match p.get_begin with
    | some d => query.filter (fun r =>
        decide (startOfDay d ≤ (if use_updated_at then r.updated_at else r.created_at)))
    | Option.none => query
  match p.get_end with
  | some d => q1.filter (fun r =>
      decide ((if use_updated_at then r.updated_at else r.created_at) ≤ endOfDay d))
  | Option.none => q1

/-- Lower-cased character list of a string, for the case-insensitive
`ilike` comparison. -/
def lowerChars (s : String) : List Char :=
  s.data.map Char.toLower

/-- Whether `pat` occurs as a prefix of `hay`. -/
def isPrefixB : List Char → List Char → Bool
  | [], _ => true
  | _ :: _, [] => false
  | a :: as, b :: bs => a == b && isPrefixB as bs

/-- Whether `pat` occurs as a contiguous run inside `hay`. -/
def isInfixB : List Char → List Char → Bool
  | pat, [] => pat.isEmpty
  | pat, c :: rest => isPrefixB pat (c :: rest) || isInfixB pat rest

/-- The SQL `column.ilike(percent value percent)` comparison on a row
value: a case-insensitive substring match on a text column; a non-text
value matches nothing. -/
def ilikeContains (v : Val) (pat : String) : Bool :=
  match v with
  | Val.s str => isInfixB (lowerChars pat) (lowerChars str)
  | _ => false

/-- Translation of `filters_by_query(query, model, q)`: walk the request
object's `__dict__`; a truthy string value adds a case-insensitive
substring filter on its column, a truthy integer or boolean adds an exact
equality filter; falsy values add nothing. -/
def filters_by_query (query : List Row) (model : Model) :
    List (String × Val) → List Row
  | [] => query
  | (attr, v) :: rest =>
    let query2 :=
      if v.truthy then
        match v with
        | Val.s str => query.filter (fun r => ilikeContains (getField r attr) str)
        | Val.i n => query.filter (fun r => pyEq (getField r attr) (Val.i n))
        | Val.b bv => query.filter (fun r => pyEq (getField r attr) (Val.b bv))
        | Val.null => query
      else query
    filters_by_query query2 model rest

/- ### Reference Validator -/

/-- Translation of `get_referenced_table_and_fk(model)`: the mapping from
each foreign-key-constrained column name to the name of the table it
references, in column order. -/
def get_referenced_table_and_fk (model : Model) : List (String × String) :=
  model.columns.filterMap (fun c => c.fk.map (fun t => (c.name, t)))

/- ### CRUD: read paths -/

/-- The unbound-local failure message when `get_item_by_column` reaches
its tail with `query` never assigned. -/
def gibcUnboundMsg : String :=
  "local variable query referenced before assignment"

/-- A query handle or its executed result set: `get_item_by_column`
returns the executed rows when `mode` is true and the composable handle
otherwise. -/
inductive QueryOrRows where
  | queryHandle (l : List Row)
  | resultRows (l : List Row)
deriving Repr, DecidableEq

/-- The rows a handle or result set selects. -/
def QueryOrRows.toList : QueryOrRows → List Row
  | QueryOrRows.queryHandle l => l
  | QueryOrRows.resultRows l => l

/-- The rows selected when the loop of `get_item_by_column` takes the
branch for column `nv`: the base query `db.query(model)` filtered by
equality on that column and then by `model.valid`. -/
def gibcFilter (model : Model) (db : DB) (nv : String × Val) : List Row :=
  ((dbQuery db model).filter (fun r => pyEq (getField r nv.1) nv.2)).filter
    (fun r => r.valid)

/-- One iteration of the loop of `get_item_by_column`: on a truthy value
naming an entity column the local `query` is rebuilt from `db.query(model)`
(discarding any earlier assignment), otherwise it is left as it was. -/
def gibcStep (model : Model) (db : DB) (acc : Option (List Row))
    (nv : String × Val) : Option (List Row) :=
  if nv.2.truthy then
    if (colNames model).contains nv.1 then some (gibcFilter model db nv) else acc
  else acc

/-- Translation of `get_item_by_column(model, columns, mode, db)`: iterate
the supplied column/value mapping, each truthy entity column rebuilding the
local `query` from scratch; afterwards execute it (`mode` true) or return
the handle.  When no iteration assigned `query`, the tail raises the
unbound-local error. -/
def get_item_by_column (model : Model) (columns : List (String × Val))
    (mode : Bool) (db : DB) : Except PyErr QueryOrRows :=
  match columns.foldl (gibcStep model db) Option.none with
  | Option.none => Except.error (PyErr.nameError gibcUnboundMsg)
  | some query =>
    Except.ok (if mode then QueryOrRows.resultRows query else QueryOrRows.queryHandle query)

/-- The winning iteration of the loop of `get_item_by_column`: the last
supplied truthy value naming an entity column, if any. -/
def lastTruthyStep (model : Model) (acc : Option (String × Val))
    (nv : String × Val) : Option (String × Val) :=
  if nv.2.truthy then
    if (colNames model).contains nv.1 then some nv else acc
  else acc

/-- The last supplied truthy entity column of a columns mapping. -/
def lastTruthyCol (model : Model) (cols : List (String × Val)) :
    Option (String × Val) :=
  cols.foldl (lastTruthyStep model) Option.none

/-- Translation of `get_item_by_id(model, index, db)`: primary-key lookup
ignoring the soft-delete flag; raises `ItemKeyValidationError` when the
key resolves to nothing; the session is closed on both paths by the
`finally` block. -/
def get_item_by_id (model : Model) (index : Nat) (db : DB) :
    Except PyErr Row × DB :=
  match (dbQuery db model).find? (fun r => r.id == index) with
  | Option.none => (Except.error (PyErr.itemKeyValidationError index), closeDB db)
  | some item => (Except.ok item, closeDB db)

/- ### Reference Validator (continued) -/

/-- The `except Exception` clause of `valid_referenced_key`: any failure
inside its `try` block, including the NotFound it raised itself, is
re-raised as a 500 wrapping the original message. -/
def vrkWrap (e : PyErr) : PyErr :=
  PyErr.http 500 ("Internal server error : " ++ describeErr e)

/-- The `try` body of one iteration of `valid_referenced_key`: look the
carried value up via `get_item_by_column` on `model` itself with
`mode=True`, and raise a bare 404 when the result list is empty. -/
def vrkTryBody (model : Model) (getAttr : String → Val) (db : DB)
    (attr : String) : Except PyErr Unit :=
  match get_item_by_column model [(attr, getAttr attr)] true db with
  | Except.error e => Except.error e
  | Except.ok res =>
    if res.toList.isEmpty then Except.error (PyErr.http 404 ("Not Found"))
    else Except.ok ()

/-- The loop of `valid_referenced_key` over the declared foreign-key
columns: columns the item exposes no attribute for are skipped; any
failure of the `try` body is wrapped to a 500. -/
def vrkLoop (model : Model) (hasAttr : String → Bool) (getAttr : String → Val)
    (db : DB) : List (String × String) → Except PyErr Bool
  | [] => Except.ok true
  | (attr, _) :: rest =>
    if hasAttr attr then
      match vrkTryBody model getAttr db attr with
      | Except.error e => Except.error (vrkWrap e)
      | Except.ok _ => vrkLoop model hasAttr getAttr db rest
    else vrkLoop model hasAttr getAttr db rest

/-- Translation of `valid_referenced_key(model, item, db)`.  Attribute
access on `item` is passed explicitly: a loaded entity or freshly
constructed model instance exposes every column as an attribute
(`hasAttr` constantly true, values via `getField`), while the raw request
dict passed by `update_item` exposes none (`hasAttr` constantly
false). -/
def valid_referenced_key (model : Model) (hasAttr : String → Bool)
    (getAttr : String → Val) (db : DB) : Except PyErr Bool :=
  vrkLoop model hasAttr getAttr db (get_referenced_table_and_fk model)

/- ### CRUD: list, create, update, delete -/

/-- Integer view of a value, for the descending `order_by` on a datetime
column (datetimes are modelled as integer timestamps). -/
def valToInt : Val → Int
  | Val.i n => n
  | Val.b bv => if bv then 1 else 0
  | _ => 0

/-- Insertion step of the descending sort. -/
def insertDesc (key : Row → Int) (x : Row) : List Row → List Row
  | [] => [x]
  | y :: ys => if key y < key x then x :: y :: ys else y :: insertDesc key x ys

/-- The session contract's `order_by(column.desc())`, modelled from the
spec as a descending sort on the integer-valued column. -/
def sortDescBy (key : Row → Int) : List Row → List Row
  | [] => []
  | x :: xs => insertDesc key x (sortDescBy key xs)

/-- The query built by `get_list_of_item` before pagination: the base
query (`init_query` or a full scan), the equality/substring pass of
`filters_by_query`, then the descending order on `update_datetime` when
the entity has that column, else on `datetime` when it has that one. -/
def listQuery (model : Model) (q : List (String × Val))
    (init_query : Option (List Row)) (db : DB) : List Row :=
  let iq := match init_query with
    | Option.none => dbQuery db model
    | some l => l
  let query := filters_by_query iq model q
  if (colNames model).contains "update_datetime" then
    sortDescBy (fun r => valToInt (getField r "update_datetime")) query
  else if (colNames model).contains "datetime" then
    sortDescBy (fun r => valToInt (getField r "datetime")) query
  else query

/-- Translation of `get_list_of_item(model, skip, limit, q, init_query,
db)`: build the filtered ordered query, paginate with `offset(skip)` and
`limit(limit)`, raise 404 on an empty page — note the raise happens before
the `db.close()` line, which only the non-empty path reaches. -/
def get_list_of_item (model : Model) (skip limit : Nat)
    (q : List (String × Val)) (init_query : Option (List Row)) (db : DB) :
    Except PyErr (List Row) × DB :=
  let result := ((listQuery model q init_query db).drop skip).take limit
  if result.isEmpty then (Except.error (PyErr.http 404 ("Item not found")), db)
  else (Except.ok result, closeDB db)

/-- The entity constructor `model(**req.dict())`, modelled from the spec:
a fresh record carries the payload columns, its soft-delete flag starts
true, and key and timestamps are left for the store to generate. -/
def mkItem (model : Model) (req : List (String × Val)) : Row :=
  { id := 0, valid := true, created_at := 0, updated_at := 0, fields := req }

/-- Whether inserting `item` violates a uniqueness constraint.  Modelled
from the spec: the store raises an integrity violation when a unique
column of the candidate collides with an existing row (spec section 7,
Conflict). -/
def violatesIntegrity (model : Model) (rows : List Row) (item : Row) : Bool :=
  model.uniqueCols.any (fun c =>
    rows.any (fun r => pyEq (getField r c) (getField item c)))

/-- The `db.refresh(item)` after a successful insert, modelled from the
spec: it picks up the store-generated primary key. -/
def refreshItem (rows : List Row) (item : Row) : Row :=
  { item with id := rows.length + 1 }

/-- The `session.add` plus `commit` of a successful insert: the row is
appended to the entity's table. -/
def dbInsert (db : DB) (model : Model) (item : Row) : DB :=
  { db with tables := fun n =>
      if n = model.name then db.tables n ++ [item] else db.tables n }

/-- The message the integrity-violation handler of `create_item` wraps
into its 400 response. -/
def integrityMsg : String := "UNIQUE constraint failed"

/-- The detail string of the 400 raised by `create_item` on an integrity
violation. -/
def createConflictDetail (model : Model) : String :=
  "Fail to create the new " ++ model.name ++ " item. " ++ integrityMsg

/-- Translation of `create_item(model, req, db)`: build the candidate,
validate references (any validator failure propagates unchanged — it is
not an `IntegrityError`), insert and commit, mapping an integrity
violation to a rollback plus a 400; the `finally` block closes the
session on every path. -/
def create_item (model : Model) (req : List (String × Val)) (db : DB) :
    Except PyErr Row × DB :=
  match valid_referenced_key model (fun _ => true)
      (fun a => getField (mkItem model req) a) db with
  | Except.error e => (Except.error e, closeDB db)
  | Except.ok ok =>
    if ok then
      if violatesIntegrity model (dbQuery db model) (mkItem model req) then
        (Except.error (PyErr.http 400 (createConflictDetail model)), closeDB db)
      else
        (Except.ok (refreshItem (dbQuery db model) (mkItem model req)),
          closeDB (dbInsert db model (refreshItem (dbQuery db model) (mkItem model req))))
    else (Except.ok (mkItem model req), closeDB db)

/-- The commit of an update or soft delete: the row whose key is `index`
is replaced by `item2` in the entity's table. -/
def dbReplace (db : DB) (model : Model) (index : Nat) (item2 : Row) : DB :=
  { db with tables := fun n =>
      if n = model.name then
        (db.tables n).map (fun r => if r.id == index then item2 else r)
      else db.tables n }

/-- Keyword parameters `get_item_by_id` declares. -/
def get_item_by_id_params : List String := ["model", "index", "db"]

/-- Keyword arguments `update_item` passes to `get_item_by_id`. -/
def update_item_call_kwargs : List String := ["model", "index", "db", "user_mode"]

/-- Python keyword-argument binding: calling a function whose keyword
parameters are `params` with keyword arguments `args` raises `TypeError`
at the call site, before the callee body runs, when some argument name is
not a declared parameter. -/
def pyKwargsCheck (fname : String) (params args : List String) :
    Except PyErr Unit :=
  match args.find? (fun a => !(params.contains a)) with
  | some a =>
    Except.error (PyErr.typeError (fname ++ " got an unexpected keyword argument " ++ a))
  | Option.none => Except.ok ()

/-- The per-field loop of `update_item` over the payload dict: payload
keys present on the loaded entity are type-checked with `isinstance`
against the stored value; on a match the reference validator is re-run on
the raw payload dict (which exposes no attributes, so it trivially
succeeds) and the field is assigned; on a mismatch a 422 naming the
column is raised — inside the `try`, so the surrounding handler will
re-wrap it. -/
def updLoop (model : Model) (db : DB) : Row → List (String × Val) →
    Except PyErr Row
  | item, [] => Except.ok item
  | item, (k, v) :: rest =>
    match item.fields.lookup k with
    | Option.none => updLoop model db item rest
    | some cur =>
      if valIsinstance v cur then
        match valid_referenced_key model (fun _ => false) (fun _ => Val.null) db with
        | Except.error e => Except.error e
        | Except.ok ok =>
          updLoop model db (if ok then setField item k v else item) rest
      else
        Except.error (PyErr.http 422 ("Invalid value type for column " ++ k ++ "."))

/-- Translation of `update_item(model, req, index, db)`.  Its first
statement calls `get_item_by_id` with the keyword argument `user_mode`,
which `get_item_by_id` does not declare; Python keyword binding therefore
raises `TypeError` at the call site, before any record is read — the rest
of the body (the per-field loop, whose `except Exception` also swallows
its own 422 into a 500, the commit and the `finally` close) is
unreachable. -/
def update_item (model : Model) (req : List (String × Val)) (index : Nat)
    (db : DB) : Except PyErr Row × DB :=
  match pyKwargsCheck ("get_item_by_id") get_item_by_id_params update_item_call_kwargs with
  | Except.error e => (Except.error e, db)
  | Except.ok _ =>
    match get_item_by_id model index db with
    | (Except.error e, db1) => (Except.error e, db1)
    | (Except.ok item, db1) =>
      match updLoop model db1 item req with
      | Except.error e =>
        (Except.error (PyErr.http 500
          ("Unexpected error occurred during update: " ++ describeErr e)), closeDB db1)
      | Except.ok item2 =>
        (Except.ok item2, closeDB (dbReplace db1 model index item2))

/-- Translation of `delete_item(model, index, db)`: load by primary key
(raising `ItemKeyValidationError` when the key is absent), set
`valid = False`, commit and close.  The deterministic session raises no
unexpected persistence error, so the rollback handler is never taken. -/
def delete_item (model : Model) (index : Nat) (db : DB) :
    Except PyErr Unit × DB :=
  match get_item_by_id model index db with
  | (Except.error e, db1) => (Except.error e, db1)
  | (Except.ok item, db1) =>
    (Except.ok (), closeDB (dbReplace db1 model index { item with valid := false }))

/- ### Derived predicates used by the statements -/

/-- The constraint one query-spec field imposes according to
`filters_by_query`: nothing when the value is falsy, a case-insensitive
substring match for a string, exact equality for an integer or
boolean. -/
def queryCond (r : Row) : String × Val → Bool
  | (attr, v) =>
    if v.truthy then
      match v with
      | Val.s str => ilikeContains (getField r attr) str
      | Val.i n => pyEq (getField r attr) (Val.i n)
      | Val.b bv => pyEq (getField r attr) (Val.b bv)
      | Val.null => true
    else true

/- ### Concrete scenarios -/

/-- A soft-deleted record. -/
def c1Row : Row :=
  { id := 1, valid := false, created_at := 0, updated_at := 0,
    fields := [("title", Val.s "x")] }

/-- Entity with a plain title column and no datetime ordering columns. -/
def c1Model : Model :=
  { name := "news", columns := [⟨"id", Option.none⟩, ⟨"title", Option.none⟩],
    uniqueCols := [] }

/-- A store whose news table holds only the soft-deleted record. -/
def c1Db : DB :=
  { tables := fun n => if n = "news" then [c1Row] else [], closed := false }

/-- A live record used to exercise the read-by-column path. -/
def c1wRow : Row :=
  { id := 1, valid := true, created_at := 0, updated_at := 0,
    fields := [("a", Val.i 1)] }

/-- Entity for the read-by-column witness. -/
def c1wModel : Model :=
  { name := "w1", columns := [⟨"a", Option.none⟩], uniqueCols := [] }

/-- Store for the read-by-column witness. -/
def c1wDb : DB :=
  { tables := fun n => if n = "w1" then [c1wRow] else [], closed := false }

/-- Entity with an integer-free string column `title`. -/
def c2Model : Model :=
  { name := "books", columns := [⟨"id", Option.none⟩, ⟨"title", Option.none⟩],
    uniqueCols := [] }

/-- Stored record whose `title` is the string `a`. -/
def c2Row : Row :=
  { id := 1, valid := true, created_at := 0, updated_at := 0,
    fields := [("title", Val.s "a")] }

/-- Store holding the single book record. -/
def c2Db : DB :=
  { tables := fun n => if n = "books" then [c2Row] else [], closed := false }

/-- Update payload whose `title` value is an integer: a type mismatch
against the stored string. -/
def c2Req : List (String × Val) := [("title", Val.i 5)]

/-- Entity with a foreign-key column `press_id` referencing `press`. -/
def c4Model : Model :=
  { name := "articles",
    columns := [⟨"id", Option.none⟩, ⟨"title", Option.none⟩,
      ⟨"press_id", some "press"⟩],
    uniqueCols := [] }

/-- A store with both the articles table and the referenced press table
empty: the carried foreign-key value matches no row anywhere. -/
def c4Db : DB := { tables := fun _ => [], closed := false }

/-- Create payload carrying a foreign-key value with no matching row. -/
def c4Req : List (String × Val) := [("title", Val.s "x"), ("press_id", Val.i 999)]

/-- The error `create_item` actually produces in the missing-reference
scenario: the validator's 404 re-wrapped by its own `except` clause. -/
def c4e : PyErr :=
  PyErr.http 500 ("Internal server error : HTTPException 404 Not Found")

/-- Entity whose `title` column carries a uniqueness constraint. -/
def c5Model : Model :=
  { name := "news5", columns := [⟨"title", Option.none⟩], uniqueCols := ["title"] }

/-- Existing record occupying the unique title. -/
def c5Row : Row :=
  { id := 1, valid := true, created_at := 0, updated_at := 0,
    fields := [("title", Val.s "x")] }

/-- Store holding the record that makes the insert collide. -/
def c5Db : DB :=
  { tables := fun n => if n = "news5" then [c5Row] else [], closed := false }

/-- Create payload colliding with the stored unique title. -/
def c5Req : List (String × Val) := [("title", Val.s "x")]

/-- Row matching the first supplied column but not the second. -/
def c6r1 : Row :=
  { id := 1, valid := true, created_at := 0, updated_at := 0,
    fields := [("a", Val.i 1), ("b", Val.i 3)] }

/-- Row matching the second supplied column but not the first. -/
def c6r2 : Row :=
  { id := 2, valid := true, created_at := 0, updated_at := 0,
    fields := [("a", Val.i 9), ("b", Val.i 2)] }

/-- Entity with the two columns the mapping names. -/
def c6Model : Model :=
  { name := "m6", columns := [⟨"a", Option.none⟩, ⟨"b", Option.none⟩],
    uniqueCols := [] }

/-- Store holding both rows. -/
def c6Db : DB :=
  { tables := fun n => if n = "m6" then [c6r1, c6r2] else [], closed := false }

/-- A columns mapping with two truthy entries. -/
def c6Cols : List (String × Val) := [("a", Val.i 1), ("b", Val.i 2)]

/-- Entity for the empty-page scenario. -/
def c9Model : Model :=
  { name := "news9", columns := [⟨"title", Option.none⟩], uniqueCols := [] }

/-- An open session over an empty table. -/
def c9Db : DB := { tables := fun _ => [], closed := false }

/-- A live record making the list read succeed. -/
def c9wRow : Row :=
  { id := 1, valid := true, created_at := 0, updated_at := 0,
    fields := [("t", Val.s "x")] }

/-- Entity for the successful-list witness. -/
def c9wModel : Model :=
  { name := "w9", columns := [⟨"t", Option.none⟩], uniqueCols := [] }

/-- Open session for the successful-list witness. -/
def c9wDb : DB :=
  { tables := fun n => if n = "w9" then [c9wRow] else [], closed := false }

/-- A record reachable by primary key 3. -/
def c10Row : Row :=
  { id := 3, valid := true, created_at := 0, updated_at := 0, fields := [] }

/-- Entity for the soft-delete scenario. -/
def c10Model : Model := { name := "w10", columns := [], uniqueCols := [] }

/-- Store holding the record to delete. -/
def c10Db : DB :=
  { tables := fun n => if n = "w10" then [c10Row] else [], closed := false }

/- ### Helper lemmas -/

/-- The loop of `get_item_by_column` tracks exactly the filter of the last
truthy entity column seen so far. -/
theorem gibc_foldl_eq (model : Model) (db : DB) :
    ∀ (cols : List (String × Val)) (a : Option (String × Val)),
      cols.foldl (gibcStep model db) (a.map (gibcFilter model db)) =
        (cols.foldl (lastTruthyStep model) a).map (gibcFilter model db)
  | [], a => rfl
  | nv :: rest, a => by
    have step : gibcStep model db (a.map (gibcFilter model db)) nv =
        (lastTruthyStep model a nv).map (gibcFilter model db) := by
      unfold gibcStep lastTruthyStep
      by_cases h1 : nv.2.truthy = true <;>
        by_cases h2 : nv.1 ∈ colNames model <;>
        simp [h1, h2]
    rw [List.foldl_cons, List.foldl_cons, step]
    exact gibc_foldl_eq model db rest _

/-- Every error `valid_referenced_key` raises carries status 500: each
failure of its `try` body, the NotFound included, is re-wrapped by its own
`except` clause. -/
theorem vrkLoop_error_500 (model : Model) (hasAttr : String → Bool)
    (getAttr : String → Val) (db : DB) :
    ∀ (l : List (String × String)) (e : PyErr),
      vrkLoop model hasAttr getAttr db l = Except.error e →
      PyErr.statusCode e = some 500
  | [], e => by intro h; exact absurd h (by simp [vrkLoop])
  | (attr, t) :: rest, e => by
    intro h
    unfold vrkLoop at h
    cases ha : hasAttr attr with
    | false =>
      rw [ha] at h
      simp only [Bool.false_eq_true, if_false] at h
      exact vrkLoop_error_500 model hasAttr getAttr db rest e h
    | true =>
      rw [ha] at h
      simp only [if_true] at h
      cases htry : vrkTryBody model getAttr db attr with
      | error e2 =>
        rw [htry] at h
        injection h with h2
        rw [← h2]
        rfl
      | ok u =>
        rw [htry] at h
        exact vrkLoop_error_500 model hasAttr getAttr db rest e h

/-- Successive filters of `filters_by_query` amount to one conjunctive
filter over the whole query spec. -/
theorem filters_by_query_eq (model : Model) :
    ∀ (spec : List (String × Val)) (query : List Row),
      filters_by_query query model spec =
        query.filter (fun r => spec.all (fun nv => queryCond r nv))
  | [], query => by
    simp [filters_by_query]
  | (attr, v) :: rest, query => by
    unfold filters_by_query
    rw [filters_by_query_eq model rest]
    cases v with
    | s str =>
      by_cases hv : Val.truthy (Val.s str) = true <;>
        simp [queryCond, hv, List.filter_filter, Bool.and_comm]
    | i n =>
      by_cases hv : Val.truthy (Val.i n) = true <;>
        simp [queryCond, hv, List.filter_filter, Bool.and_comm]
    | b bv =>
      by_cases hv : Val.truthy (Val.b bv) = true <;>
        simp [queryCond, hv, List.filter_filter, Bool.and_comm]
    | null =>
      simp [queryCond, Val.truthy]

/-- Replacing the row carrying a key in a table moves `find?` on that key
to the replacement. -/
theorem find_replace_by_id (index : Nat) (item2 : Row)
    (h2 : (item2.id == index) = true) :
    ∀ (l : List Row) (item : Row),
      l.find? (fun r => r.id == index) = some item →
      (l.map (fun r => if r.id == index then item2 else r)).find?
        (fun r => r.id == index) = some item2
  | [], item => by intro h; simp at h
  | a :: t, item => by
    intro h
    rw [List.find?_cons_eq_some] at h
    by_cases ha : (a.id == index) = true
    · rw [List.map_cons, if_pos ha, List.find?_cons_eq_some]
      left
      exact ⟨h2, rfl⟩
    · have ha' : (a.id == index) = false := by
        cases hb : (a.id == index) with
        | false => rfl
        | true => exact absurd hb ha
      rw [List.map_cons, if_neg ha, List.find?_cons_eq_some]
      right
      have hrest : t.find? (fun r => r.id == index) = some item := by
        rcases h with ⟨hpa, _⟩ | ⟨_, hfind⟩
        · exact absurd hpa ha
        · exact hfind
      refine ⟨?_, find_replace_by_id index item2 h2 t item hrest⟩
      rw [ha']
      rfl

/-- Closing the session leaves the store untouched. -/
theorem dbQuery_close (db : DB) (model : Model) :
    dbQuery (closeDB db) model = dbQuery db model := rfl

/-- The committed replacement rewrites exactly the entity's own table. -/
theorem dbQuery_replace (db : DB) (model : Model) (index : Nat) (item2 : Row) :
    dbQuery (dbReplace db model index item2) model =
      (dbQuery db model).map (fun r => if r.id == index then item2 else r) := by
  unfold dbQuery dbReplace
  simp

/- ### Claim theorems -/

/-- C3: for every input, `update_item` raises `TypeError` before reading
or mutating any record — its first statement passes the keyword argument
`user_mode` to `get_item_by_id`, whose parameter list is only
`(model, index, db)` — and the session is returned untouched, so no call
to `update_item` ever commits a change. -/
theorem c3_update_item_always_typeerror (model : Model)
    (req : List (String × Val)) (index : Nat) (db : DB) :
    update_item model req index db =
      (Except.error (PyErr.typeError
        ("get_item_by_id got an unexpected keyword argument user_mode")), db) := rfl

/-- C2 (code bug): at a concrete update whose payload field type differs
from the stored field type, `update_item` fails with the kwarg `TypeError`
— not the UnprocessableEntity the spec requires — while the stored record
is indeed left unchanged. -/
theorem c2_update_type_mismatch_typeerror :
    (update_item c2Model c2Req 1 c2Db).1 =
      Except.error (PyErr.typeError
        ("get_item_by_id got an unexpected keyword argument user_mode")) ∧
    errStatus (update_item c2Model c2Req 1 c2Db).1 ≠ some 422 ∧
    dbQuery ((update_item c2Model c2Req 1 c2Db).2) c2Model = [c2Row] ∧
    getField c2Row "title" = Val.s "a" := by decide

/-- C7: `filter_by_period` keeps exactly the rows of the query whose
selected timestamp (`updated_at` when `use_updated_at`, else `created_at`)
is at least start-of-day of a present begin bound and at most end-of-day
of a present end bound, and is the identity when both bounds are
absent. -/
theorem c7_filter_by_period_range :
    (∀ (query : List Row) (model : Model) (p : Period) (u : Bool) (r : Row),
      r ∈ filter_by_period query model p u ↔
        r ∈ query ∧
        (∀ b, p.get_begin = some b →
          startOfDay b ≤ (if u then r.updated_at else r.created_at)) ∧
        (∀ e, p.get_end = some e →
          (if u then r.updated_at else r.created_at) ≤ endOfDay e)) ∧
    (∀ (query : List Row) (model : Model) (u : Bool),
      filter_by_period query model
        { get_begin := Option.none, get_end := Option.none } u = query) := by
  constructor
  · intro query model p u r
    obtain ⟨hb, he⟩ := p
    cases hb <;> cases he <;>
      simp [filter_by_period, List.mem_filter, and_assoc] <;>
      tauto
  · intro query model u
    rfl

/-- C8: a row survives `filters_by_query` exactly when it was in the base
query and satisfies, for every spec field, the constraint of that field:
case-insensitive substring containment for a truthy string, exact equality
for a truthy integer or boolean, and no constraint at all for a falsy
value (boolean `false` included). -/
theorem c8_filters_by_query_conjunction (query : List Row) (model : Model)
    (spec : List (String × Val)) (r : Row) :
    r ∈ filters_by_query query model spec ↔
      r ∈ query ∧ ∀ nv ∈ spec, queryCond r nv = true := by
  rw [filters_by_query_eq]
  simp [List.mem_filter]

/-- Characterisation of `get_item_by_column`: the last supplied truthy
entity column alone determines the built query; with none the tail raises
the unbound-local error. -/
theorem gibc_eq_last (model : Model) (cols : List (String × Val))
    (mode : Bool) (db : DB) :
    get_item_by_column model cols mode db =
      match lastTruthyCol model cols with
      | Option.none => Except.error (PyErr.nameError gibcUnboundMsg)
      | some nv =>
        Except.ok (if mode then QueryOrRows.resultRows (gibcFilter model db nv)
          else QueryOrRows.queryHandle (gibcFilter model db nv)) := by
  unfold get_item_by_column lastTruthyCol
  have h : cols.foldl (gibcStep model db) Option.none =
      (cols.foldl (lastTruthyStep model) Option.none).map (gibcFilter model db) :=
    gibc_foldl_eq model db cols Option.none
  rw [h]
  cases cols.foldl (lastTruthyStep model) Option.none <;> rfl

/-- C6 (amended): the query `get_item_by_column` builds is an equality
constraint on the LAST supplied truthy entity column conjoined with
`valid = true` — each truthy column rebuilds the query from scratch, so
earlier constraints are discarded; with `mode` true the executed result
set is returned, otherwise the unexecuted handle; and with no truthy
entity column at all the tail raises the unbound-local error. -/
theorem c6_gibc_last_truthy_wins (model : Model) (cols : List (String × Val))
    (mode : Bool) (db : DB) :
    get_item_by_column model cols mode db =
      match lastTruthyCol model cols with
      | Option.none => Except.error (PyErr.nameError gibcUnboundMsg)
      | some nv =>
        Except.ok (if mode then QueryOrRows.resultRows (gibcFilter model db nv)
          else QueryOrRows.queryHandle (gibcFilter model db nv)) :=
  gibc_eq_last model cols mode db

/-- C6 counterexample: with two truthy supplied columns, the result
contains a row that violates the first column's equality constraint — the
built query is not the conjunction over every supplied column. -/
theorem c6_two_columns_last_wins :
    get_item_by_column c6Model c6Cols true c6Db =
      Except.ok (QueryOrRows.resultRows [c6r2]) ∧
    pyEq (getField c6r2 "a") (Val.i 1) = false := by decide

/-- C1 (amended): every row of a successful `get_item_by_column` result —
executed rows or composable handle alike — carries `valid = true`; the
soft-delete exclusion holds on this read path (but not on
`get_list_of_item`, see its counterexample). -/
theorem c1_gibc_excludes_invalid (model : Model) (cols : List (String × Val))
    (mode : Bool) (db : DB) (out : QueryOrRows) (r : Row)
    (hout : get_item_by_column model cols mode db = Except.ok out)
    (hr : r ∈ out.toList) : r.valid = true := by
  rw [gibc_eq_last model cols mode db] at hout
  cases hfold : lastTruthyCol model cols with
  | none =>
    rw [hfold] at hout
    exact Except.noConfusion hout
  | some nv =>
    rw [hfold] at hout
    have hout2 : (if mode then QueryOrRows.resultRows (gibcFilter model db nv)
        else QueryOrRows.queryHandle (gibcFilter model db nv)) = out :=
      Except.ok.inj hout
    rw [← hout2] at hr
    cases mode <;>
      simp only [QueryOrRows.toList, if_true, if_false,
        Bool.false_eq_true] at hr <;>
      exact (List.mem_filter.mp hr).2

/-- C1 counterexample: at a store whose table holds a single soft-deleted
record, `get_list_of_item` succeeds and returns that record — the
`valid = false` row appears in a standard read flow, so the claim fails
for `listItems`. -/
theorem c1_invalid_row_listed :
    (get_list_of_item c1Model 0 10 [] Option.none c1Db).1 =
      Except.ok [c1Row] ∧
    c1Row.valid = false := by decide

/-- C1 witness: the exclusion theorem applied at a concrete read whose
result contains a live row. -/
theorem c1_witness : c1wRow.valid = true :=
  c1_gibc_excludes_invalid c1wModel [("a", Val.i 1)] true c1wDb
    (QueryOrRows.resultRows [c1wRow]) c1wRow (by decide) (by decide)

/-- C9 (amended): `create_item` releases the session on every exit path
(its `finally` covers validation failure, integrity failure and success
alike), and `get_list_of_item` releases it on every successful return —
but not on the empty-page NotFound path, see the counterexample. -/
theorem c9_sessions_closed :
    (∀ (model : Model) (req : List (String × Val)) (db : DB),
      ((create_item model req db).2).closed = true) ∧
    (∀ (model : Model) (skip limit : Nat) (q : List (String × Val))
      (init_query : Option (List Row)) (db : DB) (res : List Row) (db2 : DB),
      get_list_of_item model skip limit q init_query db = (Except.ok res, db2) →
      db2.closed = true) := by
  constructor
  · intro model req db
    unfold create_item
    split
    · rfl
    · split
      · split <;> rfl
      · rfl
  · intro model skip limit q init_query db res db2 h
    simp only [get_list_of_item] at h
    split at h
    · simp at h
    · rw [Prod.mk.injEq] at h
      rw [← h.2]
      rfl

/-- C9 counterexample: a list read over an empty table raises the
empty-page 404 and hands the session back with `closed` still false — the
raise precedes the `db.close()` line, so that exit path does not release
the session. -/
theorem c9_empty_page_leaves_session_open :
    (get_list_of_item c9Model 0 10 [] Option.none c9Db).1 =
      Except.error (PyErr.http 404 ("Item not found")) ∧
    ((get_list_of_item c9Model 0 10 [] Option.none c9Db).2).closed = false := by
  constructor
  · rfl
  · rfl

/-- C9 witness: the amended theorem applied at a concrete successful list
read. -/
theorem c9_witness : (closeDB c9wDb).closed = true :=
  c9_sessions_closed.2 c9wModel 0 10 [] Option.none c9wDb [c9wRow]
    (closeDB c9wDb) rfl

/-- C4 (amended): whenever reference validation fails during a create —
in particular when the carried foreign-key value matches no row — the
validator's own `except` clause has already re-wrapped the NotFound, so
`create_item` fails with a 500 InternalError, performs no insert (the
store is returned unchanged, only closed), and propagates that 500. -/
theorem c4_create_fk_failure_wraps_500 (model : Model)
    (req : List (String × Val)) (db : DB) (e : PyErr)
    (h : valid_referenced_key model (fun _ => true)
        (fun a => getField (mkItem model req) a) db = Except.error e) :
    create_item model req db = (Except.error e, closeDB db) ∧
    PyErr.statusCode e = some 500 := by
  constructor
  · unfold create_item
    rw [h]
  · exact vrkLoop_error_500 model (fun _ => true)
      (fun a => getField (mkItem model req) a) db
      (get_referenced_table_and_fk model) e h

/-- C4 counterexample: creating an article whose `press_id` matches no row
of the referenced (empty) press table fails with status 500, not the 404
the claim requires; no row is inserted. -/
theorem c4_missing_fk_gives_500 :
    c4Db.tables "press" = [] ∧
    errStatus (create_item c4Model c4Req c4Db).1 = some 500 ∧
    errStatus (create_item c4Model c4Req c4Db).1 ≠ some 404 ∧
    dbQuery ((create_item c4Model c4Req c4Db).2) c4Model = [] := by decide

/-- C4 witness: the amended theorem applied at the concrete
missing-reference scenario. -/
theorem c4_witness :
    create_item c4Model c4Req c4Db = (Except.error c4e, closeDB c4Db) ∧
    PyErr.statusCode c4e = some 500 :=
  c4_create_fk_failure_wraps_500 c4Model c4Req c4Db c4e (by decide)

/-- C5 (amended): when reference validation passes and the insert violates
an integrity constraint, `create_item` rolls back — the store is returned
with its tables unchanged, only closed — and fails with a 400 Bad Request
wrapping the violation message, not a 409 Conflict. -/
theorem c5_create_integrity_400_rollback (model : Model)
    (req : List (String × Val)) (db : DB)
    (h1 : valid_referenced_key model (fun _ => true)
        (fun a => getField (mkItem model req) a) db = Except.ok true)
    (h2 : violatesIntegrity model (dbQuery db model) (mkItem model req) = true) :
    create_item model req db =
      (Except.error (PyErr.http 400 (createConflictDetail model)), closeDB db) := by
  unfold create_item
  rw [h1]
  simp [h2]

/-- C5 counterexample: an insert colliding with the stored unique title
fails with status 400 — not the 409 a Conflict classification would give —
and the table is left unchanged. -/
theorem c5_integrity_gives_400 :
    errStatus (create_item c5Model c5Req c5Db).1 = some 400 ∧
    errStatus (create_item c5Model c5Req c5Db).1 ≠ some 409 ∧
    dbQuery ((create_item c5Model c5Req c5Db).2) c5Model = [c5Row] := by decide

/-- C5 witness: the amended theorem applied at the concrete colliding
insert. -/
theorem c5_witness :
    create_item c5Model c5Req c5Db =
      (Except.error (PyErr.http 400 (createConflictDetail c5Model)), closeDB c5Db) :=
  c5_create_integrity_400_rollback c5Model c5Req c5Db (by decide) (by decide)

/-- A resolving primary key sends `delete_item` down the success path:
the loaded record is committed back with `valid` cleared and the session
closed. -/
theorem delete_item_found (model : Model) (index : Nat) (db : DB) (item : Row)
    (h : (dbQuery db model).find? (fun r => r.id == index) = some item) :
    delete_item model index db =
      (Except.ok (),
        closeDB (dbReplace (closeDB db) model index { item with valid := false })) := by
  unfold delete_item get_item_by_id
  rw [h]

/-- A non-resolving primary key makes `delete_item` propagate the
key-validation error of `get_item_by_id`, the session closed by its
`finally`. -/
theorem delete_item_missing (model : Model) (index : Nat) (db : DB)
    (h : (dbQuery db model).find? (fun r => r.id == index) = Option.none) :
    delete_item model index db =
      (Except.error (PyErr.itemKeyValidationError index), closeDB db) := by
  unfold delete_item get_item_by_id
  rw [h]

/-- C10: soft delete is idempotent at the storage level: when the id
resolves, the first and the second `delete_item` call both succeed — the
second does not error differently — and the record is left present with
`valid = false` after each; when the id does not resolve, `delete_item`
fails with the key-validation error, whose status is NotFound (404). -/
theorem c10_delete_idempotent :
    (∀ (model : Model) (index : Nat) (db : DB) (item : Row),
      (dbQuery db model).find? (fun r => r.id == index) = some item →
      (delete_item model index db).1 = Except.ok () ∧
      (dbQuery (delete_item model index db).2 model).find? (fun r => r.id == index)
        = some { item with valid := false } ∧
      (delete_item model index (delete_item model index db).2).1 = Except.ok () ∧
      (dbQuery (delete_item model index (delete_item model index db).2).2 model).find?
          (fun r => r.id == index) = some { item with valid := false }) ∧
    (∀ (model : Model) (index : Nat) (db : DB),
      (dbQuery db model).find? (fun r => r.id == index) = Option.none →
      delete_item model index db =
        (Except.error (PyErr.itemKeyValidationError index), closeDB db) ∧
      PyErr.statusCode (PyErr.itemKeyValidationError index) = some 404) := by
  constructor
  · intro model index db item h
    have hid0 := List.find?_some h
    have hid : ((({ item with valid := false } : Row)).id == index) = true := hid0
    have hd1 := delete_item_found model index db item h
    have hq1 : (dbQuery (delete_item model index db).2 model).find?
        (fun r => r.id == index) = some { item with valid := false } := by
      rw [hd1]
      show (dbQuery (closeDB (dbReplace (closeDB db) model index
          { item with valid := false })) model).find? (fun r => r.id == index)
        = some { item with valid := false }
      rw [dbQuery_close, dbQuery_replace, dbQuery_close]
      exact find_replace_by_id index { item with valid := false } hid
        (dbQuery db model) item h
    have hd2 := delete_item_found model index (delete_item model index db).2
      { item with valid := false } hq1
    have hq2 : (dbQuery (delete_item model index (delete_item model index db).2).2
        model).find? (fun r => r.id == index) = some { item with valid := false } := by
      rw [hd2]
      show (dbQuery (closeDB (dbReplace (closeDB (delete_item model index db).2) model
          index { { item with valid := false } with valid := false })) model).find?
          (fun r => r.id == index)
        = some { item with valid := false }
      rw [dbQuery_close, dbQuery_replace, dbQuery_close]
      exact find_replace_by_id index
        { { item with valid := false } with valid := false } hid
        (dbQuery (delete_item model index db).2 model) { item with valid := false } hq1
    exact ⟨by rw [hd1], hq1, by rw [hd2], hq2⟩
  · intro model index db h
    exact ⟨delete_item_missing model index db h, rfl⟩

/-- C10 witness: the idempotence theorem applied at a concrete store — the
record persists with `valid = false`, and a non-resolving id yields the
key-validation error. -/
theorem c10_witness :
    (dbQuery (delete_item c10Model 3 c10Db).2 c10Model).find? (fun r => r.id == 3)
      = some { c10Row with valid := false } ∧
    (delete_item c10Model 99 c10Db).1 =
      Except.error (PyErr.itemKeyValidationError 99) := by
  constructor
  · exact (c10_delete_idempotent.1 c10Model 3 c10Db c10Row (by decide)).2.1
  · have h := (c10_delete_idempotent.2 c10Model 99 c10Db (by decide)).1
    rw [h]
